import Mathlib

/-!
Verification of the autobids portal pipeline-orchestration core.

This file gives a shallow embedding, in Lean, of the parts of
src/autobidsportal (models.py, tasks.py, dicom.py, routes.py) that the
specification describes: task launching and the in-flight guard, the
acquisition retry loop, the conversion batch loop, the archival engine,
the filename-date matching, and the reconciliation of remote records
against acquired records.  External collaborators (the DICOM server, the
acquisition/conversion tools, the versioned dataset store and the cold
storage transfer) are abstracted as function parameters or outcome
oracles, exactly at the call boundaries the source uses.
-/

namespace Autobids

/-- Decidable equality for Except values, used to evaluate the embedded
fallible operations on concrete inputs. -/
instance {ε α : Type} [DecidableEq ε] [DecidableEq α] :
    DecidableEq (Except ε α) := fun x y =>
  match x, y with
  | .ok a, .ok b =>
    if h : a = b then .isTrue (by rw [h]) else .isFalse (by simp [h])
  | .error e, .error f =>
    if h : e = f then .isTrue (by rw [h]) else .isFalse (by simp [h])
  | .ok _, .error _ => .isFalse (by simp)
  | .error _, .ok _ => .isFalse (by simp)

/- ---------------------------------------------------------------------
Task model (models.py, class Task).

A Task row records a name, an optional study id, and completion state.
Only the fields the claims touch are embedded.
--------------------------------------------------------------------- -/

/-- One Task row (models.py, class Task).  The id is the rq job id. -/
structure TaskRow where
  id : String
  name : String
  studyId : Option Nat
  complete : Bool
  deriving Repr, DecidableEq

/-- The fixed tuple Task.TASKS from models.py (lines 237-242). -/
def TASKS : List String :=
  ["run_cfmm2tar", "run_tar2bids", "update_heuristics", "archive_raw_data"]

/-- Errors surfaced by task creation. -/
inductive LaunchError where
  /-- ValueError("Invalid task name") raised by Task.launch_task. -/
  | invalidTaskName
  deriving Repr, DecidableEq

/-- Embedding of Task.launch_task (models.py, lines 266-298): validate the
name against Task.TASKS before creating the rq job and the Task row; on an
invalid name, raise ValueError having created and enqueued nothing.  On
success the new (incomplete) Task row is appended to the table and the job
is enqueued; the returned Bool records that an enqueue happened. -/
def launchTask (name : String) (taskTable : List TaskRow)
    (newRow : TaskRow) : Except LaunchError (List TaskRow × Bool) :=
  if name ∈ TASKS then
    .ok (taskTable ++ [newRow], true)
  else
    .error .invalidTaskName

/- ---------------------------------------------------------------------
In-flight guard (routes.py, run_cfmm2tar route, lines 553-580).

The route counts incomplete Task rows with the hard-coded name
get_info_from_cfmm2tar for the study; when at least one exists it
refuses to launch (flash branch).  Otherwise it evaluates
current_user.launch_task(...) — but in this tree the User model defines
no launch_task method (models.py defines launch_task only on Task), so
that attribute lookup raises AttributeError before anything is created
or enqueued; and even under the reading that the call were
Task.launch_task, the hard-coded name is outside Task.TASKS, so
launch_task itself would raise ValueError.  Either way the launch branch
raises and no Task row is created.
--------------------------------------------------------------------- -/

/-- The hard-coded task name the run_cfmm2tar route queries and launches
(routes.py, lines 566 and 575). -/
def ROUTE_CFMM2TAR_TASK_NAME : String := "get_info_from_cfmm2tar"

/-- Outcome of one request to the run_cfmm2tar route. -/
inductive RouteLaunchOutcome where
  /-- The flash branch: a run is already in progress, nothing is created. -/
  | duplicateInFlight
  /-- The launch branch raised: the User model has no launch_task
  attribute, so no task row was created and no job enqueued. -/
  | attributeError (msg : String)
  deriving Repr, DecidableEq

/-- Embedding of the run_cfmm2tar route (routes.py, lines 562-580):
query Task rows with the given study id, the hard-coded name and
complete = False; when the count is positive, flash and create nothing;
otherwise evaluate the current_user.launch_task attribute lookup, which
raises AttributeError in this tree.  In both branches the returned Task
table is the input table: the route can never create a task. -/
def routeRunCfmm2tar (taskTable : List TaskRow) (studyId : Nat) :
    RouteLaunchOutcome × List TaskRow :=
  if 0 < (taskTable.filter
      (fun t => t.studyId = some studyId
        && t.name = ROUTE_CFMM2TAR_TASK_NAME && !t.complete)).length
  then
    (.duplicateInFlight, taskTable)
  else
    (.attributeError ("AttributeError: User object has no attribute launch_task"),
      taskTable)

/- ---------------------------------------------------------------------
Acquisition retry loop (tasks.py, run_cfmm2tar_with_retries,
lines 115-152) and the per-target acquisition handler
(tasks.py, handle_cfmm2tar, lines 260-315).
--------------------------------------------------------------------- -/

/-- Outcome of one invocation of the acquisition tool
(dcm4cheutils.Dcm4cheUtils.run_cfmm2tar).  The tool either succeeds with
a result list and a log, raises the distinguished Cfmm2tarTimeoutError,
or raises a plain Cfmm2tarError. -/
inductive ToolOutcome where
  | success (result : List (List String)) (log : String)
  | timeout
  | failure (msg : String)
  deriving Repr, DecidableEq

/-- Errors raised out of the acquisition path. -/
inductive CfmmError where
  /-- Cfmm2tarTimeoutError, the distinguished retryable class. -/
  | timeoutError
  /-- Cfmm2tarError with a message.  Not a retry trigger. -/
  | cfmm2tarError (msg : String)
  deriving Repr, DecidableEq

/-- MAX_CFMM2TAR_ATTEMPTS from tasks.py (line 60). -/
def MAX_CFMM2TAR_ATTEMPTS : Nat := 5

/-- A calendar date as stored on a Cfmm2tarOutput row. -/
structure AcqDate where
  year : Nat
  month : Nat
  day : Nat
  deriving Repr, DecidableEq

/-- One Cfmm2tarOutput row (models.py, class Cfmm2tarOutput), the record
of a completed acquisition. -/
structure RecordRow where
  studyId : Nat
  tarFile : String
  uid : String
  date : AcqDate
  attachedTarFile : Option String
  deriving Repr, DecidableEq

/-- The body of the loop "for attempt in range(1, 6)" in
run_cfmm2tar_with_retries.  The tool oracle gives the outcome of each
numbered attempt.  On success the loop breaks; on timeout it continues
when attempt < MAX_CFMM2TAR_ATTEMPTS and re-raises otherwise; any other
Cfmm2tarError propagates immediately.  On success the attempt number that
succeeded is returned alongside the result.  The fuel argument counts the
loop iterations left and is 5 at the top-level call. -/
def retryLoop (tool : Nat → ToolOutcome) :
    Nat → Nat → Except CfmmError ((List (List String) × String) × Nat)
  | _, 0 => .error .timeoutError
  | attempt, fuel + 1 =>
    match tool attempt with
    | .success result log => .ok ((result, log), attempt)
    | .failure msg => .error (.cfmm2tarError msg)
    | .timeout =>
      if attempt < MAX_CFMM2TAR_ATTEMPTS then
        retryLoop tool (attempt + 1) fuel
      else
        .error .timeoutError

/-- Embedding of run_cfmm2tar_with_retries (tasks.py, lines 115-152):
attempts are numbered 1 through 5. -/
def runCfmm2tarWithRetries (tool : Nat → ToolOutcome) :
    Except CfmmError ((List (List String) × String) × Nat) :=
  retryLoop tool 1 5

/-- Embedding of the control flow of handle_cfmm2tar (tasks.py, lines
260-315) relevant to record creation: the function first calls
run_cfmm2tar_with_retries; every later step (output validation,
dataset commit, record_cfmm2tar) runs only when that call returned, and
is abstracted here as the continuation rest.  An error from the retry
call propagates, so no AcquisitionRecord is created for the target. -/
def handleCfmm2tar (tool : Nat → ToolOutcome)
    (rest : (List (List String) × String) × Nat → Except CfmmError RecordRow) :
    Except CfmmError RecordRow :=
  (runCfmm2tarWithRetries tool).bind rest

/- ---------------------------------------------------------------------
Filename date matching (tasks.py, record_cfmm2tar, lines 155-196).

The source matches the downloaded tar file name against the regular
expression of tasks.py line 175, with character classes over ASCII, and
builds the Cfmm2tarOutput row from the captured eight-digit date.  The
matcher below embeds exactly that expression as a list of elements
matched with the same greedy backtracking order Python uses, so the
capture agrees with re.fullmatch.
--------------------------------------------------------------------- -/

/-- Class a-z or A-Z, as in the first token of the expression. -/
def isReAlpha (c : Char) : Bool :=
  ('a' ≤ c && c ≤ 'z') || ('A' ≤ c && c ≤ 'Z')

/-- Digit class. -/
def isReDigit (c : Char) : Bool := '0' ≤ c && c ≤ '9'

/-- Word-or-dash class (the second and fourth tokens). -/
def isReWordDash (c : Char) : Bool :=
  isReAlpha c || isReDigit c || c = '_' || c = '-'

/-- Dot-letter-digit class (the token before the tar suffix). -/
def isReDotAlnum (c : Char) : Bool := c = '.' || isReAlpha c || isReDigit c

/-- One element of the embedded expression: a literal character, a greedy
one-or-more repetition of a class, or the captured run of exactly eight
digits. -/
inductive RegexElem where
  | lit : Char → RegexElem
  | plus : (Char → Bool) → RegexElem
  | group8 : RegexElem

/-- Full-string matching of a list of elements, returning the digits of
the captured group on success.  The one-or-more case tries the longer
repetition first, which is the greedy backtracking order of re.fullmatch,
so the returned capture is the one Python computes.  The fuel bounds the
recursion depth and is at least the string length plus the element count
at every top-level call. -/
def reMatch : Nat → List RegexElem → List Char → Option (List Char)
  | 0, _, _ => none
  | _ + 1, [], s => if s.isEmpty then some [] else none
  | _ + 1, .lit _ :: _, [] => none
  | fuel + 1, .lit c :: ps, x :: xs =>
    if x = c then reMatch fuel ps xs else none
  | _ + 1, .plus _ :: _, [] => none
  | fuel + 1, .plus cls :: ps, x :: xs =>
    if cls x then
      match reMatch fuel (.plus cls :: ps) xs with
      | some g => some g
      | none => reMatch fuel ps xs
    else none
  | fuel + 1, .group8 :: ps, s =>
    let g := s.take 8
    if g.length = 8 && g.all isReDigit then
      (reMatch fuel ps (s.drop 8)).map (fun rest => g ++ rest)
    else none

/-- The expression of tasks.py line 175 as a list of elements: letters,
an underscore, word-or-dash characters, an underscore, the captured
eight digits, an underscore, word-or-dash characters, an underscore,
dot-letter-digit characters, and the literal dot-t-a-r suffix. -/
def tarNamePattern : List RegexElem :=
  [.plus isReAlpha, .lit '_', .plus isReWordDash, .lit '_', .group8,
   .lit '_', .plus isReWordDash, .lit '_', .plus isReDotAlnum,
   .lit '.', .lit 't', .lit 'a', .lit 'r']

/-- re.fullmatch of the tar-name expression, returning the captured
eight date digits when the whole name matches. -/
def tarNameDateDigits (name : String) : Option (List Char) :=
  reMatch (name.length + 14) tarNamePattern name.data

/-- Numeric value of a digit character. -/
def digitVal (c : Char) : Nat := c.toNat - 48

/-- Value of a run of decimal digit characters, as int() computes it. -/
def digitsToNat (l : List Char) : Nat :=
  l.foldl (fun acc c => 10 * acc + digitVal c) 0

/-- Python str.strip with no argument: remove leading and trailing
whitespace. -/
def isPySpace (c : Char) : Bool :=
  c = ' ' || c = '\t' || c = '\n' || c = '\r' ||
    c = Char.ofNat 11 || c = Char.ofNat 12

/-- Embedding of the str.strip calls of the source. -/
def pyStrip (s : String) : String :=
  ⟨((s.data.dropWhile isPySpace).reverse.dropWhile isPySpace).reverse⟩

/-- Gregorian leap-year rule used by datetime. -/
def isLeapYear (y : Nat) : Bool :=
  (y % 4 = 0 && y % 100 ≠ 0) || y % 400 = 0

/-- Days in a month, as datetime validates them. -/
def daysInMonth (y m : Nat) : Nat :=
  if m = 2 then (if isLeapYear y then 29 else 28)
  else if m = 4 || m = 6 || m = 9 || m = 11 then 30
  else 31

/-- The argument ranges accepted by the datetime constructor; arguments
outside them raise ValueError. -/
def validDate (y m d : Nat) : Bool :=
  1 ≤ y && y ≤ 9999 && 1 ≤ m && m ≤ 12 && 1 ≤ d && d ≤ daysInMonth y m

/-- Embedding of record_cfmm2tar (tasks.py, lines 155-196): match the tar
file name against the fixed expression; a non-matching name raises
Cfmm2tarError with the could-not-be-parsed message and nothing is
recorded; on a match, build the Cfmm2tarOutput row with the date taken
from the four-two-two split of the captured digits and the stripped
uid, and commit it. -/
def recordCfmm2tar (tarFile : String) (uid : String) (studyId : Nat)
    (attachedTarFile : Option String) : Except String RecordRow :=
  match tarNameDateDigits tarFile with
  | none => .error ("Output " ++ tarFile ++ " could not be parsed.")
  | some g =>
    let y := digitsToNat (g.take 4)
    let m := digitsToNat ((g.drop 4).take 2)
    let d := digitsToNat (g.drop 6)
    if validDate y m d then
      .ok { studyId := studyId, tarFile := tarFile, uid := pyStrip uid,
            date := ⟨y, m, d⟩, attachedTarFile := attachedTarFile }
    else
      .error ("ValueError: date value out of range")

/- ---------------------------------------------------------------------
Conversion batch (tasks.py, run_tar2bids, lines 447-562).
--------------------------------------------------------------------- -/

/-- Result state of a run_tar2bids batch.  mergedTarIds lists the tar
files whose tool output was merged and committed into the raw dataset
(the per-record commit at tasks.py lines 535-553); conversionRecord is
the Tar2bidsOutput row added after the loop (lines 554-562), holding the
ids of all consumed cfmm2tar outputs; failure carries the Tar2bidsError
message when the batch aborted. -/
structure Tar2bidsResult where
  mergedTarIds : List Nat
  conversionRecord : Option (List Nat)
  failure : Option String
  deriving Repr, DecidableEq

/-- The loop "for tar_out in cfmm2tar_outputs" in run_tar2bids: each
record is converted by the tool; on Tar2bidsError the exception is
re-raised (fail-fast) with the already-merged commits left in place; on
success the output is merged into the raw dataset and committed before
the next record. -/
def tar2bidsLoop (tool : Nat → Except String Unit) (merged : List Nat) :
    List Nat → (List Nat × Option String)
  | [] => (merged, none)
  | tarId :: rest =>
    match tool tarId with
    | .ok _ => tar2bidsLoop tool (merged ++ [tarId]) rest
    | .error msg => (merged, some msg)

/-- Embedding of run_tar2bids (tasks.py, lines 447-562): an empty batch
returns immediately; otherwise the batch loop runs, and only when it
finishes without an error is the Tar2bidsOutput row referencing every
consumed cfmm2tar output added. -/
def runTar2bids (tool : Nat → Except String Unit) (tarFileIds : List Nat) :
    Tar2bidsResult :=
  if tarFileIds = [] then
    { mergedTarIds := [], conversionRecord := none, failure := none }
  else
    match tar2bidsLoop tool [] tarFileIds with
    | (merged, none) =>
      { mergedTarIds := merged
        conversionRecord := some tarFileIds
        failure := none }
    | (merged, some msg) =>
      { mergedTarIds := merged, conversionRecord := none, failure := some msg }

/- ---------------------------------------------------------------------
Record reconciliation (dicom.py: get_inclusion_records lines 45-79,
get_description_records lines 82-148, get_study_records lines 151-184,
organize_flat_responses lines 212-257; tasks.py:
find_studies_to_download lines 208-223).

The DICOM server is abstracted at the query_single_study boundary: the
environment holds the flat series responses the description query
returns for the study's criteria and, as a function, the flat responses
an explicit StudyInstanceUID query returns.  A flat response is one
rearranged per-series mapping; the int() conversion of the SeriesNumber
attribute is modelled by carrying the integer value, and the Python
string comparison of the sort key is modelled on code-point lists.
--------------------------------------------------------------------- -/

/-- One rearranged per-series response mapping, holding the attributes
of ATTRIBUTES_QUERIED (dicom.py, lines 14-22). -/
structure FlatResponse where
  studyInstanceUID : String
  patientName : String
  seriesDescription : String
  seriesNumber : Int
  studyID : String
  patientID : String
  patientSex : String
  deriving Repr, DecidableEq

/-- The five-field patient-info tuple built by the set comprehensions of
get_inclusion_records and get_description_records, in source order:
PatientID, PatientName, PatientSex, StudyID, StudyInstanceUID. -/
structure PatientInfo where
  patientId : String
  patientName : String
  patientSex : String
  studyId : String
  studyUid : String
  deriving Repr, DecidableEq

/-- The patient-info tuple of one flat response. -/
def FlatResponse.toPatientInfo (r : FlatResponse) : PatientInfo :=
  { patientId := r.patientID
    patientName := r.patientName
    patientSex := r.patientSex
    studyId := r.studyID
    studyUid := r.studyInstanceUID }

/-- The SeriesMetadata dataclass (dicom.py, lines 25-31). -/
structure SeriesMetadata where
  description : String
  number : Int
  deriving Repr, DecidableEq

/-- The StudyMetadata dataclass (dicom.py, lines 33-42). -/
structure StudyMetadata where
  patientName : String
  patientId : String
  patientSex : String
  studyId : String
  studyUid : String
  seriesMetadata : List SeriesMetadata
  deriving Repr, DecidableEq

/-- Lexicographic less-or-equal on code-point lists, the order Python
uses to compare the sort-key strings. -/
def lexLe : List Nat → List Nat → Bool
  | [], _ => true
  | _ :: _, [] => false
  | a :: as, b :: bs =>
    if a < b then true else if b < a then false else lexLe as bs

/-- Code points of the minimal decimal rendering of a natural number.
The fuel argument only bounds the recursion and exceeds the digit count
at the top-level call. -/
def digitCodesAux : Nat → Nat → List Nat
  | 0, _ => []
  | fuel + 1, n =>
    if n < 10 then [48 + n] else digitCodesAux fuel (n / 10) ++ [48 + n % 10]

/-- Code points of the minimal decimal rendering of a natural number. -/
def digitCodes (n : Nat) : List Nat := digitCodesAux (n + 1) n

/-- Code points of the zero-padded-to-width-3 rendering of a natural
number, as the format specifier 03d produces it: numbers below 1000 are
left-padded with the zero digit to three characters, larger numbers are
rendered in full. -/
def natKey (n : Nat) : List Nat :=
  if n < 1000 then [48 + n / 100, 48 + n / 10 % 10, 48 + n % 10]
  else digitCodes n

/-- Code points of the 03d rendering of an integer: a negative number is
the minus sign followed by its magnitude zero-padded so that the total
width counts the sign. -/
def seriesKey (i : Int) : List Nat :=
  if i < 0 then
    45 ::
      (if i.natAbs < 100 then [48 + i.natAbs / 10, 48 + i.natAbs % 10]
       else digitCodes i.natAbs)
  else natKey i.toNat

/-- The comparison of the sorted call of organize_flat_responses
(dicom.py, line 247): compare the 03d renderings of the series numbers
as strings. -/
def seriesLe (m₁ m₂ : SeriesMetadata) : Bool :=
  lexLe (seriesKey m₁.number) (seriesKey m₂.number)

/-- Insert one series into a list ordered by the rendered key, before
the first element it is less-or-equal to.  Together with sortSeries this
is the stable sort Python's sorted performs with that key. -/
def orderedInsertSeries (m : SeriesMetadata) :
    List SeriesMetadata → List SeriesMetadata
  | [] => [m]
  | x :: xs =>
    if seriesLe m x then m :: x :: xs else x :: orderedInsertSeries m xs

/-- Stable sort of the series list by the rendered key, the sorted call
at dicom.py lines 238-248. -/
def sortSeries : List SeriesMetadata → List SeriesMetadata
  | [] => []
  | x :: xs => orderedInsertSeries x (sortSeries xs)

/-- Embedding of organize_flat_responses (dicom.py, lines 212-257): for
every patient-info tuple, collect the series of the responses with the
same StudyInstanceUID and sort them by the zero-padded rendering of the
series number.  The patient-info argument is the enumeration of the set
the caller built; Python set iteration order is abstracted as whatever
duplicate-free enumeration is passed. -/
def organizeFlatResponses (responses : List FlatResponse)
    (patientInfo : List PatientInfo) : List StudyMetadata :=
  patientInfo.map fun pi =>
    { patientName := pi.patientName
      patientId := pi.patientId
      patientSex := pi.patientSex
      studyId := pi.studyId
      studyUid := pi.studyUid
      seriesMetadata :=
        sortSeries
          (((responses.filter
              (fun r => r.studyInstanceUID = pi.studyUid)).map
            (fun r =>
              { number := r.seriesNumber
                description := r.seriesDescription : SeriesMetadata }))) }

/-- One ExplicitPatient row (models.py, class ExplicitPatient) restricted
to the fields the reconciler reads. -/
structure ExplicitPatientRow where
  studyInstanceUid : String
  included : Bool
  deriving Repr, DecidableEq

/-- The study configuration the reconciler reads: the explicit patient
overrides and the optional compiled patient-name expression, the latter
abstracted as the predicate re.fullmatch decides.  A missing expression
is the match-everything default of dicom.py lines 136-140. -/
structure ReconcilerStudy where
  explicitPatients : List ExplicitPatientRow
  patientNameRe : Option (String → Bool)

/-- Whether a patient name passes the study's name filter (dicom.py,
lines 135-142). -/
def nameMatches (study : ReconcilerStudy) (name : String) : Bool :=
  match study.patientNameRe with
  | some p => p name
  | none => true

/-- The DICOM server at the query_single_study boundary: the flat
responses of the description/date/patient-criteria query of
get_description_records, and the flat responses of an explicit
StudyInstanceUID-list query of get_inclusion_records. -/
structure DicomEnv where
  descriptionResponses : List FlatResponse
  uidResponses : List String → List FlatResponse

/-- Embedding of get_inclusion_records (dicom.py, lines 45-79): an empty
uid list queries nothing; otherwise query the server for those uids and
organize the responses under their deduplicated patient-info tuples. -/
def getInclusionRecords (env : DicomEnv) (uidsIncluded : List String) :
    List StudyMetadata :=
  if uidsIncluded = [] then []
  else
    let responses := env.uidResponses uidsIncluded
    organizeFlatResponses responses
      ((responses.map FlatResponse.toPatientInfo).dedup)

/-- Embedding of get_description_records (dicom.py, lines 82-148): query
the server with the study's criteria, keep the patient-info tuples of
the responses whose patient name passes the study's name filter and
whose StudyInstanceUID is not excluded by an included=False override,
and organize the responses under them. -/
def getDescriptionRecords (env : DicomEnv) (study : ReconcilerStudy) :
    List StudyMetadata :=
  let uidsExcluded :=
    (study.explicitPatients.filter (fun p => !p.included)).map
      (fun p => p.studyInstanceUid)
  let responses := env.descriptionResponses
  organizeFlatResponses responses
    (((responses.filter
        (fun r =>
          nameMatches study r.patientName
            && !(uidsExcluded.contains r.studyInstanceUID))).map
      FlatResponse.toPatientInfo).dedup)

/-- Embedding of get_study_records (dicom.py, lines 151-184): fetch the
records of every included=True override, fetch the description-matched
records, and append the description records whose uid is not among the
included uids after the inclusion records. -/
def getStudyRecords (env : DicomEnv) (study : ReconcilerStudy) :
    List StudyMetadata :=
  let uidsIncluded :=
    (study.explicitPatients.filter (fun p => p.included)).map
      (fun p => p.studyInstanceUid)
  getInclusionRecords env uidsIncluded
    ++ (getDescriptionRecords env study).filter
      (fun record => !(uidsIncluded.contains record.studyUid))

/-- Embedding of the Python subscript applied to a StudyMetadata value
at tasks.py line 221: the StudyMetadata dataclass defines no item
access, so the subscript raises TypeError whatever the key. -/
def StudyMetadata.getItem (_record : StudyMetadata) (_key : String) :
    Except String String :=
  .error ("TypeError: StudyMetadata object is not subscriptable")

/-- The list comprehension of find_studies_to_download over the records
of get_study_records (tasks.py, lines 218-223), evaluated left to right:
each record is subscripted with the StudyInstanceUID key and kept when
the value is not among the stripped uids of the existing outputs; a
raised error aborts the comprehension. -/
def filterNotAcquired (existingUids : List String) :
    List StudyMetadata → Except String (List StudyMetadata)
  | [] => .ok []
  | record :: rest =>
    match record.getItem ("StudyInstanceUID") with
    | .error e => .error e
    | .ok uid =>
      match filterNotAcquired existingUids rest with
      | .error e => .error e
      | .ok kept =>
        .ok (if existingUids.contains uid then kept else record :: kept)

/-- Embedding of the explicit_scans-is-None branch of
find_studies_to_download (tasks.py, lines 208-223): the existing
Cfmm2tarOutput uids are stripped, and the records of get_study_records
are filtered by the subscript comprehension. -/
def findStudiesToDownload (env : DicomEnv) (study : ReconcilerStudy)
    (existingOutputUids : List String) : Except String (List StudyMetadata) :=
  filterNotAcquired (existingOutputUids.map pyStrip)
    (getStudyRecords env study)

/-- The comprehension find_studies_to_download evidently intends, written
with the attribute access used three lines earlier in get_study_records:
keep the records whose study_uid is not among the stripped acquired
uids. -/
def findStudiesIntended (env : DicomEnv) (study : ReconcilerStudy)
    (existingOutputUids : List String) : List StudyMetadata :=
  (getStudyRecords env study).filter
    (fun record =>
      !((existingOutputUids.map pyStrip).contains record.studyUid))

/- ---------------------------------------------------------------------
Archival engine (tasks.py: archive_entire_dataset lines 565-584,
archive_partial_dataset lines 587-618, archive_raw_data lines 621-683).

The versioned dataset store is abstracted at the GitRepo boundary: the
current commit hash and commit date of the cloned dataset, the full
content listing, and the diff between two hashes are inputs.  The cold
storage transfer (make_remote_dir followed by copy_file) is abstracted
as a success flag.
--------------------------------------------------------------------- -/

/-- Change kind of one entry of GitRepo.diff, the state value the source
tests against the added-or-modified set. -/
inductive ChangeState where
  | added
  | modified
  | deleted
  | clean
  | untracked
  deriving Repr, DecidableEq

/-- Entry kind of one entry of GitRepo.diff, the type value the source
tests against the file-or-symlink set. -/
inductive EntryType where
  | file
  | symlink
  | directory
  | dataset
  deriving Repr, DecidableEq

/-- One entry value of GitRepo.diff. -/
structure DiffEntry where
  state : ChangeState
  type : EntryType
  deriving Repr, DecidableEq

/-- One DatasetArchive row (models.py, class DatasetArchive). -/
structure ArchiveRow where
  id : Nat
  datasetId : Nat
  parentId : Option Nat
  datasetHexsha : String
  commitDatetime : Nat
  deriving Repr, DecidableEq

/-- Embedding of the call max(dataset_raw.dataset_archives, default=None,
key=lambda archive: archive.commit_datetime) at tasks.py lines 635-639:
Python max keeps the current maximum and replaces it only when a later
item's key is strictly greater, so ties go to the earlier row. -/
def latestArchive (rows : List ArchiveRow) : Option ArchiveRow :=
  rows.foldl
    (fun acc r =>
      match acc with
      | none => some r
      | some cur =>
        if cur.commitDatetime < r.commitDatetime then some r else some cur)
    none

/-- The state of the cloned dataset working copy, read through GitRepo:
get_hexsha() and get_commit_date(date="committed"). -/
structure RepoState where
  hexsha : String
  commitDate : Nat
  deriving Repr, DecidableEq

/-- Inputs of one archive_raw_data run.  The diff field is the GitRepo
diff oracle between two hashes; fullContent lists every path of the
dataset; transferOk tells whether the make_remote_dir and copy_file
calls succeed; newRowId is the primary key the database would assign to
an inserted DatasetArchive row. -/
structure ArchiveInput where
  customRiaUrl : Option String
  hasContent : Bool
  archives : List ArchiveRow
  datasetId : Nat
  repo : RepoState
  fullContent : List String
  diff : String → String → List (String × DiffEntry)
  transferOk : Bool
  newRowId : Nat

/-- Observable outcome of one archive_raw_data run: the DatasetArchive
table afterwards, the paths packaged into the archive blob (none when no
blob was built), whether the blob reached cold storage, and whether the
run raised out of the transfer. -/
structure ArchiveOutcome where
  archives : List ArchiveRow
  packagedPaths : Option (List String)
  transferred : Bool
  failed : Bool
  deriving Repr, DecidableEq

/-- Embedding of archive_entire_dataset (tasks.py, lines 565-584): fetch
all dataset content, package the whole tree, and build a DatasetArchive
row with no parent from the current hash and commit date.  Returns the
row and the packaged paths. -/
def archiveEntireDataset (inp : ArchiveInput) : ArchiveRow × List String :=
  ({ id := inp.newRowId
     datasetId := inp.datasetId
     parentId := none
     datasetHexsha := inp.repo.hexsha
     commitDatetime := inp.repo.commitDate },
   inp.fullContent)

/-- Embedding of archive_partial_dataset (tasks.py, lines 587-618): diff
the latest archived hash against the current hash, keep the paths whose
state is added or modified and whose type is file or symlink, package
exactly those, and build a DatasetArchive row whose parent is the latest
archive.  Returns the row and the packaged paths. -/
def archivePartialDataset (inp : ArchiveInput) (latest : ArchiveRow) :
    ArchiveRow × List String :=
  let updatedFiles :=
    ((inp.diff latest.datasetHexsha inp.repo.hexsha).filter
      (fun pe =>
        (pe.2.state = ChangeState.added || pe.2.state = ChangeState.modified)
          && (pe.2.type = EntryType.file || pe.2.type = EntryType.symlink))).map
      Prod.fst
  ({ id := inp.newRowId
     datasetId := inp.datasetId
     parentId := some latest.id
     datasetHexsha := inp.repo.hexsha
     commitDatetime := inp.repo.commitDate },
   updatedFiles)

/-- The tail of archive_raw_data after the blob is built (tasks.py,
lines 672-683): make_remote_dir, copy_file, then db.session.add and
db.session.commit.  A failed transfer raises before the add, leaving the
DatasetArchive table unchanged. -/
def archiveTransferStep (inp : ArchiveInput)
    (rowPaths : ArchiveRow × List String) : ArchiveOutcome :=
  if inp.transferOk then
    { archives := inp.archives ++ [rowPaths.1]
      packagedPaths := some rowPaths.2
      transferred := true, failed := false }
  else
    { archives := inp.archives
      packagedPaths := some rowPaths.2
      transferred := false, failed := true }

/-- Embedding of archive_raw_data (tasks.py, lines 621-683): skip when
the study has a custom remote or no content; find the latest archive by
commit datetime; no-op when its hash equals the current hash; otherwise
build a full archive (no prior) or a partial archive (prior exists),
transfer the blob, and persist the new row only when the transfer
succeeded. -/
def archiveRawData (inp : ArchiveInput) : ArchiveOutcome :=
  if inp.customRiaUrl.isSome || !inp.hasContent then
    { archives := inp.archives, packagedPaths := none
      transferred := false, failed := false }
  else
    match latestArchive inp.archives with
    | some latest =>
      if latest.datasetHexsha = inp.repo.hexsha then
        { archives := inp.archives, packagedPaths := none
          transferred := false, failed := false }
      else
        archiveTransferStep inp (archivePartialDataset inp latest)
    | none =>
      archiveTransferStep inp (archiveEntireDataset inp)

/- ---------------------------------------------------------------------
Concrete fixtures used to instantiate the archival theorems.
--------------------------------------------------------------------- -/

/-- A prior DatasetArchive row at version v1. -/
def priorRow : ArchiveRow :=
  { id := 1, datasetId := 1, parentId := none, datasetHexsha := "v1",
    commitDatetime := 10 }

/-- An archival run input with no prior snapshot, at version v1. -/
def archiveInputNoPrior : ArchiveInput :=
  { customRiaUrl := none, hasContent := true, archives := [], datasetId := 1,
    repo := { hexsha := "v1", commitDate := 10 }, fullContent := ["a", "b"],
    diff := fun _ _ => [], transferOk := true, newRowId := 1 }

/-- An archival run input whose dataset moved to version v2 after the
prior snapshot, adding files f1 and f2 (and a directory, with one file
deleted, neither of which is to be packaged). -/
def archiveInputWithPrior : ArchiveInput :=
  { customRiaUrl := none, hasContent := true, archives := [priorRow],
    datasetId := 1, repo := { hexsha := "v2", commitDate := 20 },
    fullContent := ["a", "b", "f1", "f2"],
    diff := fun _ _ =>
      [("f1", { state := .added, type := .file }),
       ("f2", { state := .added, type := .file }),
       ("old", { state := .deleted, type := .file }),
       ("newdir", { state := .added, type := .directory })],
    transferOk := true, newRowId := 2 }

/-- An archival run input whose latest snapshot already has the current
version id. -/
def archiveInputUpToDate : ArchiveInput :=
  { archiveInputNoPrior with archives := [priorRow] }

/-- The v2 archival run input with a failing cold-storage transfer. -/
def archiveInputFailedTransfer : ArchiveInput :=
  { archiveInputWithPrior with transferOk := false }

/- ---------------------------------------------------------------------
Concrete fixtures used to instantiate the reconciliation and series
ordering theorems.
--------------------------------------------------------------------- -/

/-- A flat per-series response with the given uid, patient name, series
description and series number. -/
def mkFlatResponse (uid pname desc : String) (num : Int) : FlatResponse :=
  { studyInstanceUID := uid, patientName := pname, seriesDescription := desc,
    seriesNumber := num, studyID := "ST1", patientID := "PID1",
    patientSex := "O" }

/-- Two series of one scan session numbered 999 and 1000. -/
def c9Responses : List FlatResponse :=
  [mkFlatResponse "U1" "P1" "s999" 999,
   mkFlatResponse "U1" "P1" "s1000" 1000]

/-- The patient-info tuple of that scan session. -/
def c9PatientInfo : List PatientInfo :=
  [{ patientId := "PID1", patientName := "P1", patientSex := "O",
     studyId := "ST1", studyUid := "U1" }]

/-- Two series numbered 2 and 1, to be sorted ascending. -/
def c9AscResponses : List FlatResponse :=
  [mkFlatResponse "U1" "P1" "b" 2,
   mkFlatResponse "U1" "P1" "a" 1]

/-- A study with an included=False override on uid B and an
included=True override on uid D, and no patient-name filter. -/
def c3Study : ReconcilerStudy :=
  { explicitPatients := [{ studyInstanceUid := "B", included := false },
                         { studyInstanceUid := "D", included := true }],
    patientNameRe := none }

/-- A server whose description query returns sessions A, B and C and
whose explicit-uid query can fetch session D. -/
def c3Env : DicomEnv :=
  { descriptionResponses :=
      [mkFlatResponse "A" "pA" "s" 1,
       mkFlatResponse "B" "pB" "s" 1,
       mkFlatResponse "C" "pC" "s" 1],
    uidResponses := fun uids =>
      if uids = ["D"] then [mkFlatResponse "D" "pD" "s" 1] else [] }

/- ---------------------------------------------------------------------
Supporting lemmas.
--------------------------------------------------------------------- -/

/-- Unfolding of the head comparison of the lexicographic order. -/
lemma lexLe_cons (a b : Nat) (as bs : List Nat) :
    lexLe (a :: as) (b :: bs) = true ↔
      a < b ∨ (a = b ∧ lexLe as bs = true) := by
  simp only [lexLe]
  split_ifs with h1 h2
  · simp [h1]
  · constructor
    · intro h; cases h
    · intro h
      rcases h with h | ⟨h, -⟩
      · omega
      · omega
  · have heq : a = b := by omega
    simp [heq]

/-- The lexicographic order is total. -/
lemma lexLe_total : ∀ xs ys : List Nat,
    lexLe xs ys = true ∨ lexLe ys xs = true := by
  intro xs
  induction xs with
  | nil => intro ys; exact Or.inl rfl
  | cons a as ih =>
    intro ys
    cases ys with
    | nil => exact Or.inr rfl
    | cons b bs =>
      rw [lexLe_cons, lexLe_cons]
      rcases Nat.lt_trichotomy a b with hlt | heq | hgt
      · exact Or.inl (Or.inl hlt)
      · rcases ih bs with h | h
        · exact Or.inl (Or.inr ⟨heq, h⟩)
        · exact Or.inr (Or.inr ⟨heq.symm, h⟩)
      · exact Or.inr (Or.inl hgt)

/-- The lexicographic order is transitive. -/
lemma lexLe_trans : ∀ xs ys zs : List Nat,
    lexLe xs ys = true → lexLe ys zs = true → lexLe xs zs = true := by
  intro xs
  induction xs with
  | nil => intro ys zs _ _; rfl
  | cons a as ih =>
    intro ys zs h1 h2
    cases ys with
    | nil => simp [lexLe] at h1
    | cons b bs =>
      cases zs with
      | nil => simp [lexLe] at h2
      | cons c cs =>
        rw [lexLe_cons] at h1 h2 ⊢
        rcases h1 with h1 | ⟨h1e, h1r⟩
        · rcases h2 with h2 | ⟨h2e, -⟩
          · exact Or.inl (by omega)
          · exact Or.inl (by omega)
        · rcases h2 with h2 | ⟨h2e, h2r⟩
          · exact Or.inl (by omega)
          · exact Or.inr ⟨by omega, ih bs cs h1r h2r⟩

/-- Below 1000 the zero-padded renderings compare exactly as the numbers
do. -/
lemma lexLe_natKey (m n : Nat) (hm : m < 1000) (hn : n < 1000) :
    (lexLe (natKey m) (natKey n) = true) ↔ m ≤ n := by
  rw [natKey, if_pos hm, natKey, if_pos hn]
  rw [lexLe_cons, lexLe_cons, lexLe_cons]
  simp only [lexLe, eq_self_iff_true, and_true]
  have e1 : m / 10 / 10 = m / 100 := by rw [Nat.div_div_eq_div_mul]
  have e2 : n / 10 / 10 = n / 100 := by rw [Nat.div_div_eq_div_mul]
  constructor
  · intro h; omega
  · intro h; omega

/-- The series comparison is total. -/
lemma seriesLe_total (a b : SeriesMetadata) :
    seriesLe a b = true ∨ seriesLe b a = true :=
  lexLe_total (seriesKey a.number) (seriesKey b.number)

/-- The series comparison is transitive. -/
lemma seriesLe_trans {a b c : SeriesMetadata}
    (h1 : seriesLe a b = true) (h2 : seriesLe b c = true) :
    seriesLe a c = true :=
  lexLe_trans _ _ _ h1 h2

/-- Membership through the ordered insertion. -/
lemma mem_orderedInsertSeries (m x : SeriesMetadata) :
    ∀ l, x ∈ orderedInsertSeries m l ↔ x = m ∨ x ∈ l := by
  intro l
  induction l with
  | nil => simp [orderedInsertSeries]
  | cons a as ih =>
    by_cases h : seriesLe m a
    · simp [orderedInsertSeries, h]
    · simp only [orderedInsertSeries, if_neg h, List.mem_cons, ih]
      tauto

/-- Ordered insertion preserves pairwise ordering by the series
comparison. -/
lemma pairwise_orderedInsertSeries (m : SeriesMetadata) :
    ∀ l, l.Pairwise (fun a b => seriesLe a b = true) →
      (orderedInsertSeries m l).Pairwise (fun a b => seriesLe a b = true) := by
  intro l
  induction l with
  | nil => intro _; simp [orderedInsertSeries]
  | cons a as ih =>
    intro hp
    rw [List.pairwise_cons] at hp
    obtain ⟨ha, has⟩ := hp
    by_cases h : seriesLe m a
    · simp only [orderedInsertSeries, if_pos h]
      rw [List.pairwise_cons]
      refine ⟨?_, List.pairwise_cons.mpr ⟨ha, has⟩⟩
      intro b hb
      rcases List.mem_cons.mp hb with rfl | hbmem
      · exact h
      · exact seriesLe_trans h (ha b hbmem)
    · simp only [orderedInsertSeries, if_neg h]
      rw [List.pairwise_cons]
      refine ⟨?_, ih has⟩
      intro b hb
      rcases (mem_orderedInsertSeries m b as).mp hb with rfl | hbmem
      · rcases seriesLe_total b a with h2 | h2
        · exact absurd h2 h
        · exact h2
      · exact ha b hbmem

/-- The sort permutes membership. -/
lemma mem_sortSeries (x : SeriesMetadata) :
    ∀ l, x ∈ sortSeries l ↔ x ∈ l := by
  intro l
  induction l with
  | nil => simp [sortSeries]
  | cons a as ih =>
    simp only [sortSeries, mem_orderedInsertSeries, ih, List.mem_cons]

/-- The sort output is pairwise ordered by the series comparison. -/
lemma pairwise_sortSeries :
    ∀ l, (sortSeries l).Pairwise (fun a b => seriesLe a b = true) := by
  intro l
  induction l with
  | nil => simp [sortSeries]
  | cons a as ih => exact pairwise_orderedInsertSeries a _ ih

/-- For series numbers between 0 and 999 the rendered-key comparison
agrees with the numeric comparison. -/
lemma seriesLe_iff_le {a b : SeriesMetadata}
    (ha0 : 0 ≤ a.number) (ha1 : a.number < 1000)
    (hb0 : 0 ≤ b.number) (hb1 : b.number < 1000) :
    seriesLe a b = true ↔ a.number ≤ b.number := by
  rw [seriesLe, seriesKey, if_neg (by omega), seriesKey, if_neg (by omega),
    lexLe_natKey a.number.toNat b.number.toNat (by omega) (by omega)]
  omega

/-- An element produced by folding the Python max step is the
accumulator or a member of the list. -/
lemma latestArchive_foldl_mem :
    ∀ (rows : List ArchiveRow) (acc : Option ArchiveRow) (a : ArchiveRow),
      rows.foldl
        (fun acc r =>
          match acc with
          | none => some r
          | some cur =>
            if cur.commitDatetime < r.commitDatetime then some r else some cur)
        acc = some a →
      acc = some a ∨ a ∈ rows := by
  intro rows
  induction rows with
  | nil => intro acc a h; exact Or.inl h
  | cons r rest ih =>
    intro acc a h
    rw [List.foldl_cons] at h
    rcases ih _ a h with hstep | hmem
    · cases acc with
      | none =>
        simp at hstep
        exact Or.inr (by simp [hstep])
      | some cur =>
        have hstep2 : (if cur.commitDatetime < r.commitDatetime
            then some r else some cur) = some a := hstep
        by_cases hlt : cur.commitDatetime < r.commitDatetime
        · rw [if_pos hlt] at hstep2
          injection hstep2 with h1
          exact Or.inr (by simp [h1.symm])
        · rw [if_neg hlt] at hstep2
          exact Or.inl hstep2
    · exact Or.inr (List.mem_cons_of_mem r hmem)

/-- The latest archive of a table is a row of the table. -/
lemma latestArchive_mem {rows : List ArchiveRow} {a : ArchiveRow}
    (h : latestArchive rows = some a) : a ∈ rows := by
  rcases latestArchive_foldl_mem rows none a h with hc | hm
  · simp at hc
  · exact hm

/-- Appending a row whose commit datetime is strictly later than every
existing row's makes it the latest archive. -/
lemma latestArchive_append_new (rows : List ArchiveRow) (newRow : ArchiveRow)
    (hlt : ∀ r ∈ rows, r.commitDatetime < newRow.commitDatetime) :
    latestArchive (rows ++ [newRow]) = some newRow := by
  rw [latestArchive, List.foldl_append]
  have hfold : rows.foldl
      (fun acc r =>
        match acc with
        | none => some r
        | some cur =>
          if cur.commitDatetime < r.commitDatetime then some r else some cur)
      none = latestArchive rows := rfl
  rw [hfold]
  cases hla : latestArchive rows with
  | none => simp
  | some cur =>
    have hcur := latestArchive_mem hla
    simp [hlt cur hcur]

/-- Soundness of the retry loop: a successful pass that started at a
numbered attempt within the budget succeeded at some attempt between the
start and 5, and every earlier attempt of the pass timed out. -/
lemma retryLoop_ok_spec (tool : Nat → ToolOutcome) :
    ∀ fuel attempt res n, attempt ≤ 5 →
      retryLoop tool attempt fuel = .ok (res, n) →
      attempt ≤ n ∧ n ≤ 5 ∧ tool n = .success res.1 res.2 ∧
        ∀ i, attempt ≤ i → i < n → tool i = .timeout
  | 0, attempt, res, n => by
    intro _ hE
    simp [retryLoop] at hE
  | fuel + 1, attempt, res, n => by
    intro hle hE
    unfold retryLoop at hE
    cases htool : tool attempt with
    | success r l =>
      rw [htool] at hE
      injection hE with h1
      injection h1 with hres hn
      subst hn
      subst hres
      refine ⟨Nat.le_refl _, hle, by simp [htool], ?_⟩
      intro i h1 h2
      exact absurd h2 (by omega)
    | failure m =>
      rw [htool] at hE
      simp at hE
    | timeout =>
      rw [htool] at hE
      by_cases hlt : attempt < MAX_CFMM2TAR_ATTEMPTS
      · rw [if_pos hlt] at hE
        have ih := retryLoop_ok_spec tool fuel (attempt + 1) res n (by
          simp [MAX_CFMM2TAR_ATTEMPTS] at hlt; omega) hE
        obtain ⟨h1, h2, h3, h4⟩ := ih
        refine ⟨by omega, h2, h3, ?_⟩
        intro i hi1 hi2
        rcases Nat.eq_or_lt_of_le hi1 with rfl | hgt
        · exact htool
        · exact h4 i hgt hi2
      · rw [if_neg hlt] at hE
        simp at hE

/-- When every one of the five attempts times out, the retry wrapper
re-raises the terminal timeout. -/
lemma retryLoop_all_timeout (tool : Nat → ToolOutcome)
    (hT : ∀ i, 1 ≤ i → i ≤ 5 → tool i = .timeout) :
    runCfmm2tarWithRetries tool = .error .timeoutError := by
  have t1 := hT 1 (by omega) (by omega)
  have t2 := hT 2 (by omega) (by omega)
  have t3 := hT 3 (by omega) (by omega)
  have t4 := hT 4 (by omega) (by omega)
  have t5 := hT 5 (by omega) (by omega)
  simp [runCfmm2tarWithRetries, retryLoop, t1, t2, t3, t4, t5,
    MAX_CFMM2TAR_ATTEMPTS]

/-- When attempts one through four time out and the fifth succeeds, the
retry wrapper returns the fifth attempt's result. -/
lemma retryLoop_fifth_success (tool : Nat → ToolOutcome)
    (res : List (List String)) (log : String)
    (hT : ∀ i, 1 ≤ i → i ≤ 4 → tool i = .timeout)
    (hS : tool 5 = .success res log) :
    runCfmm2tarWithRetries tool = .ok ((res, log), 5) := by
  have t1 := hT 1 (by omega) (by omega)
  have t2 := hT 2 (by omega) (by omega)
  have t3 := hT 3 (by omega) (by omega)
  have t4 := hT 4 (by omega) (by omega)
  simp [runCfmm2tarWithRetries, retryLoop, t1, t2, t3, t4, hS,
    MAX_CFMM2TAR_ATTEMPTS]

/-- The conversion loop walks a prefix of successfully converted records
by appending each of them to the merged accumulator. -/
lemma tar2bidsLoop_ok_prefix (tool : Nat → Except String Unit) :
    ∀ (pre rest merged : List Nat),
      (∀ t ∈ pre, tool t = Except.ok ()) →
      tar2bidsLoop tool merged (pre ++ rest) =
        tar2bidsLoop tool (merged ++ pre) rest := by
  intro pre
  induction pre with
  | nil => intro rest merged _; simp
  | cons a l ih =>
    intro rest merged hok
    have ha := hok a (List.mem_cons_self a l)
    simp only [List.cons_append, tar2bidsLoop, ha, List.append_eq]
    rw [ih rest (merged ++ [a]) (fun t ht => hok t (List.mem_cons_of_mem a ht))]
    simp

/-- A conversion loop pass that ends without an error converted every
record of the batch and merged all of them. -/
lemma tar2bidsLoop_all_ok (tool : Nat → Except String Unit) :
    ∀ (tars merged m : List Nat),
      tar2bidsLoop tool merged tars = (m, none) →
      m = merged ++ tars ∧ ∀ t ∈ tars, tool t = Except.ok () := by
  intro tars
  induction tars with
  | nil =>
    intro merged m h
    simp [tar2bidsLoop] at h
    simp [h.symm]
  | cons a l ih =>
    intro merged m h
    unfold tar2bidsLoop at h
    cases ha : tool a with
    | ok u =>
      rw [ha] at h
      obtain ⟨h1, h2⟩ := ih (merged ++ [a]) m h
      constructor
      · simp [h1]
      · intro t ht
        rcases List.mem_cons.mp ht with rfl | hmem
        · cases u; exact ha
        · exact h2 t hmem
    | error msg =>
      rw [ha] at h
      simp at h

/- ---------------------------------------------------------------------
Claim theorems.
--------------------------------------------------------------------- -/

/-- C2: for every acquisition target the tool is invoked with at most 5
attempts and a retry happens only after the distinguished timeout
failure (every attempt before the successful one timed out); timeouts on
attempts 1 through 4 followed by success on attempt 5 make the operation
succeed using exactly 5 attempts; and when all 5 attempts time out the
terminal timeout error is raised out of the per-target handler, so no
AcquisitionRecord is created for that target. -/
theorem c2_acquisition_retry_budget :
    (∀ (tool : Nat → ToolOutcome) (res : List (List String) × String) (n : Nat),
        runCfmm2tarWithRetries tool = .ok (res, n) →
        1 ≤ n ∧ n ≤ 5 ∧ tool n = .success res.1 res.2 ∧
          ∀ i, 1 ≤ i → i < n → tool i = .timeout) ∧
    (∀ (tool : Nat → ToolOutcome) (res : List (List String)) (log : String),
        (∀ i, 1 ≤ i → i ≤ 4 → tool i = .timeout) →
        tool 5 = .success res log →
        runCfmm2tarWithRetries tool = .ok ((res, log), 5)) ∧
    (∀ (tool : Nat → ToolOutcome)
        (rest : (List (List String) × String) × Nat →
          Except CfmmError RecordRow),
        (∀ i, 1 ≤ i → i ≤ 5 → tool i = .timeout) →
        handleCfmm2tar tool rest = .error .timeoutError) := by
  refine ⟨?_, ?_, ?_⟩
  · intro tool res n hE
    exact retryLoop_ok_spec tool 5 1 res n (by omega) hE
  · intro tool res log hT hS
    exact retryLoop_fifth_success tool res log hT hS
  · intro tool rest hT
    rw [handleCfmm2tar, retryLoop_all_timeout tool hT]
    rfl

/-- Witness for C2: a tool that times out on the first four attempts and
succeeds on the fifth yields a success using exactly 5 attempts, and a
tool that always times out makes the per-target handler raise the
terminal timeout. -/
theorem c2_acquisition_retry_budget_witness :
    runCfmm2tarWithRetries
        (fun i => if i < 5 then ToolOutcome.timeout
          else .success [["a.tar"]] "log") =
      .ok (([["a.tar"]], "log"), 5) ∧
    handleCfmm2tar (fun _ => ToolOutcome.timeout)
        (fun _ => .error (.cfmm2tarError "unused")) =
      .error .timeoutError := by
  constructor
  · exact c2_acquisition_retry_budget.2.1 _ [["a.tar"]] "log"
      (by intro i h1 h2; rw [if_pos (show i < 5 by omega)])
      (by rw [if_neg (by omega)])
  · exact c2_acquisition_retry_budget.2.2 _ _ (fun i _ _ => rfl)

/-- C4: when the conversion tool fails on a record of the batch, the
batch aborts with no ConversionRecord created while the dataset commits
of the records processed earlier in the batch remain merged; and a
ConversionRecord is only ever created referencing all consumed
acquisitions after every record of the batch converted successfully. -/
theorem c4_conversion_fail_fast :
    (∀ (tool : Nat → Except String Unit) (pre : List Nat) (tarId : Nat)
        (post : List Nat) (msg : String),
        (∀ t ∈ pre, tool t = Except.ok ()) →
        tool tarId = .error msg →
        runTar2bids tool (pre ++ tarId :: post) =
          { mergedTarIds := pre, conversionRecord := none,
            failure := some msg }) ∧
    (∀ (tool : Nat → Except String Unit) (tars rec : List Nat),
        (runTar2bids tool tars).conversionRecord = some rec →
        rec = tars ∧ ∀ t ∈ tars, tool t = Except.ok ()) := by
  constructor
  · intro tool pre tarId post msg hok herr
    have hne : pre ++ tarId :: post ≠ [] := by simp
    rw [runTar2bids, if_neg hne,
      tar2bidsLoop_ok_prefix tool pre (tarId :: post) [] hok]
    simp [tar2bidsLoop, herr]
  · intro tool tars rec hrec
    by_cases hne : tars = []
    · subst hne
      simp [runTar2bids] at hrec
    · rw [runTar2bids, if_neg hne] at hrec
      cases h : tar2bidsLoop tool [] tars with
      | mk m failopt =>
        cases failopt with
        | none =>
          rw [h] at hrec
          simp at hrec
          obtain ⟨-, hall⟩ := tar2bidsLoop_all_ok tool tars [] m h
          exact ⟨hrec.symm, hall⟩
        | some msg =>
          rw [h] at hrec
          simp at hrec

/-- Witness for C4: a batch of three acquisitions whose second fails
ends with the first record merged, no ConversionRecord, and the failure
message recorded. -/
theorem c4_conversion_fail_fast_witness :
    runTar2bids (fun t => if t = 2 then Except.error "boom" else Except.ok ())
        [1, 2, 3] =
      { mergedTarIds := [1], conversionRecord := none,
        failure := some "boom" } :=
  c4_conversion_fail_fast.1
    (fun t => if t = 2 then Except.error "boom" else Except.ok ())
    [1] 2 [3] "boom" (by decide) (by decide)

/-- C7: the in-flight half of the claim holds — when an incomplete task
with the route's hard-coded name exists for the study, the request takes
the duplicate-in-flight branch and no new task is created or enqueued —
but the success half fails in this tree: once every task for the pair is
complete the route's launch branch raises, because the User model
defines no launch_task attribute, so the request still creates nothing;
and under the alternative reading through Task.launch_task, the
hard-coded name is outside Task.TASKS and raises ValueError.  A new
creation request after the in-flight task completes can therefore never
succeed through the cited route. -/
theorem c7_in_flight_guard_bug :
    (∀ (table : List TaskRow) (studyId : Nat) (t : TaskRow),
        t ∈ table → t.studyId = some studyId →
        t.name = ROUTE_CFMM2TAR_TASK_NAME → t.complete = false →
        routeRunCfmm2tar table studyId = (.duplicateInFlight, table)) ∧
    (∀ (table : List TaskRow) (studyId : Nat),
        (∀ t, t ∈ table → t.studyId = some studyId →
          t.name = ROUTE_CFMM2TAR_TASK_NAME → t.complete = true) →
        routeRunCfmm2tar table studyId =
          (.attributeError
            ("AttributeError: User object has no attribute launch_task"),
           table)) ∧
    (∀ (table : List TaskRow) (row : TaskRow),
        launchTask ROUTE_CFMM2TAR_TASK_NAME table row =
          .error .invalidTaskName) := by
  refine ⟨?_, ?_, ?_⟩
  · intro table studyId t ht h1 h2 h3
    have hmem : t ∈ table.filter
        (fun t => t.studyId = some studyId
          && t.name = ROUTE_CFMM2TAR_TASK_NAME && !t.complete) := by
      rw [List.mem_filter]
      exact ⟨ht, by simp [h1, h2, h3]⟩
    have hpos := List.length_pos.mpr (List.ne_nil_of_mem hmem)
    simp [routeRunCfmm2tar, hpos]
  · intro table studyId hall
    have hnil : table.filter
        (fun t => t.studyId = some studyId
          && t.name = ROUTE_CFMM2TAR_TASK_NAME && !t.complete) = [] := by
      rw [List.filter_eq_nil_iff]
      intro t ht
      simp only [Bool.and_eq_true, Bool.not_eq_true', decide_eq_true_eq]
      intro h
      rw [hall t ht h.1.1 h.1.2] at h
      simp at h
    simp [routeRunCfmm2tar, hnil]
  · intro table row
    rw [launchTask, if_neg (by decide)]

/-- Witness for C7: with an incomplete route task for study 7 in the
table the request is refused and the table is unchanged; with that task
completed the launch branch raises the attribute error and the table is
still unchanged; and launching the hard-coded route name through
Task.launch_task raises the invalid-name error. -/
theorem c7_in_flight_guard_bug_witness :
    routeRunCfmm2tar
        [{ id := "j1", name := "get_info_from_cfmm2tar", studyId := some 7,
           complete := false }] 7 =
      (.duplicateInFlight,
       [{ id := "j1", name := "get_info_from_cfmm2tar", studyId := some 7,
          complete := false }]) ∧
    routeRunCfmm2tar
        [{ id := "j1", name := "get_info_from_cfmm2tar", studyId := some 7,
           complete := true }] 7 =
      (.attributeError
        ("AttributeError: User object has no attribute launch_task"),
       [{ id := "j1", name := "get_info_from_cfmm2tar", studyId := some 7,
          complete := true }]) ∧
    launchTask ROUTE_CFMM2TAR_TASK_NAME []
        { id := "j2", name := "get_info_from_cfmm2tar", studyId := some 7,
          complete := false } =
      .error .invalidTaskName := by
  refine ⟨?_, ?_, ?_⟩
  · exact c7_in_flight_guard_bug.1 _ 7
      { id := "j1", name := "get_info_from_cfmm2tar", studyId := some 7,
        complete := false }
      (by simp) rfl rfl rfl
  · exact c7_in_flight_guard_bug.2.1 _ 7
      (by intro t ht h1 h2; simp at ht; simp [ht])
  · exact c7_in_flight_guard_bug.2.2 []
      { id := "j2", name := "get_info_from_cfmm2tar", studyId := some 7,
        complete := false }

/-- C10: task creation accepts only the four fixed stage names; every
other name, the correction stage's gradcorrect_study name used by the
uncorrected-image scan included, raises ValueError before any task row
is created or any job enqueued. -/
theorem c10_launch_task_name_validation :
    (∀ (name : String) (table : List TaskRow) (row : TaskRow),
        name ∉ TASKS → launchTask name table row = .error .invalidTaskName) ∧
    (∀ (table : List TaskRow) (row : TaskRow),
        launchTask ("gradcorrect_study") table row =
          .error .invalidTaskName) := by
  constructor
  · intro name table row h
    simp [launchTask, h]
  · intro table row
    rw [launchTask, if_neg (by decide)]

/-- Witness for C10: launching the gradcorrect stage name on an empty
table raises the invalid-name error. -/
theorem c10_launch_task_name_validation_witness :
    launchTask ("gradcorrect_study") []
        { id := "j1", name := "gradcorrect_study", studyId := some 1,
          complete := false } =
      .error .invalidTaskName :=
  c10_launch_task_name_validation.1 ("gradcorrect_study") []
    { id := "j1", name := "gradcorrect_study", studyId := some 1,
      complete := false }
    (by decide)

/-- C8: the acquisition date is matched out of the fixed token pattern
of the tar file name: the name proj_patient_20230615_extra_0001.tar
yields a recorded AcquisitionRecord dated 2023-06-15, while the
non-matching name bad.tar raises the hard could-not-be-parsed error and
records nothing. -/
theorem c8_filename_date_matching :
    recordCfmm2tar ("proj_patient_20230615_extra_0001.tar") ("1.2.3") 1 none =
      .ok { studyId := 1, tarFile := "proj_patient_20230615_extra_0001.tar",
            uid := "1.2.3", date := ⟨2023, 6, 15⟩, attachedTarFile := none } ∧
    recordCfmm2tar ("bad.tar") ("1.2.3") 1 none =
      .error ("Output bad.tar could not be parsed.") := by
  constructor
  · decide
  · decide

/-- C1: an archival run on a dataset whose current version differs from
the latest snapshot creates, when no prior snapshot exists, a full
snapshot with no parent packaging the entire content; and when a prior
snapshot exists, diffs the prior (latest-by-commit-datetime) snapshot's
version against the current one, packages exactly the paths whose change
kind is added-or-modified and whose entry type is file-or-symlink, and
creates a snapshot whose parent is that prior snapshot. -/
theorem c1_archive_chain :
    (∀ inp : ArchiveInput,
        inp.customRiaUrl = none → inp.hasContent = true →
        inp.transferOk = true →
        latestArchive inp.archives = none →
        archiveRawData inp =
          { archives := inp.archives ++
              [{ id := inp.newRowId, datasetId := inp.datasetId,
                 parentId := none, datasetHexsha := inp.repo.hexsha,
                 commitDatetime := inp.repo.commitDate }],
            packagedPaths := some inp.fullContent,
            transferred := true, failed := false }) ∧
    (∀ (inp : ArchiveInput) (prior : ArchiveRow),
        inp.customRiaUrl = none → inp.hasContent = true →
        inp.transferOk = true →
        latestArchive inp.archives = some prior →
        prior.datasetHexsha ≠ inp.repo.hexsha →
        archiveRawData inp =
          { archives := inp.archives ++
              [{ id := inp.newRowId, datasetId := inp.datasetId,
                 parentId := some prior.id,
                 datasetHexsha := inp.repo.hexsha,
                 commitDatetime := inp.repo.commitDate }],
            packagedPaths := some
              (((inp.diff prior.datasetHexsha inp.repo.hexsha).filter
                (fun pe =>
                  (pe.2.state = ChangeState.added ||
                    pe.2.state = ChangeState.modified) &&
                  (pe.2.type = EntryType.file ||
                    pe.2.type = EntryType.symlink))).map Prod.fst),
            transferred := true, failed := false }) := by
  constructor
  · intro inp h1 h2 h3 hla
    simp [archiveRawData, h1, h2, hla, archiveTransferStep, h3,
      archiveEntireDataset]
  · intro inp prior h1 h2 h3 hla hne
    simp [archiveRawData, h1, h2, hla, hne, archiveTransferStep, h3,
      archivePartialDataset]

/-- Witness for C1: a first run with version v1 and no prior snapshot
creates a full parentless snapshot packaging everything; after the
dataset moves to v2 adding f1 and f2, the next run creates a snapshot
whose parent is the first one and packages only f1 and f2. -/
theorem c1_archive_chain_witness :
    archiveRawData archiveInputNoPrior =
      { archives :=
          [{ id := 1, datasetId := 1, parentId := none,
             datasetHexsha := "v1", commitDatetime := 10 }],
        packagedPaths := some ["a", "b"],
        transferred := true, failed := false } ∧
    archiveRawData archiveInputWithPrior =
      { archives :=
          [priorRow,
           { id := 2, datasetId := 1, parentId := some 1,
             datasetHexsha := "v2", commitDatetime := 20 }],
        packagedPaths := some ["f1", "f2"],
        transferred := true, failed := false } := by
  constructor
  · have h := c1_archive_chain.1 archiveInputNoPrior rfl rfl rfl (by decide)
    rw [h]
    decide
  · have h := c1_archive_chain.2 archiveInputWithPrior priorRow rfl rfl rfl
      (by decide) (by decide)
    rw [h]
    decide

/-- C5: archival is idempotent: when the latest snapshot's version id
equals the current one the run is a no-op with no new row, no packaging
and no transfer; and a run that did create a snapshot, followed by a
second run with the dataset unchanged, produces exactly one new snapshot
in total, the second run being a no-op. -/
theorem c5_archival_idempotent :
    (∀ (inp : ArchiveInput) (latest : ArchiveRow),
        latestArchive inp.archives = some latest →
        latest.datasetHexsha = inp.repo.hexsha →
        archiveRawData inp =
          { archives := inp.archives, packagedPaths := none,
            transferred := false, failed := false }) ∧
    (∀ inp : ArchiveInput,
        inp.customRiaUrl = none → inp.hasContent = true →
        inp.transferOk = true →
        (∀ r ∈ inp.archives, r.commitDatetime < inp.repo.commitDate) →
        (latestArchive inp.archives = none ∨
          ∃ prior, latestArchive inp.archives = some prior ∧
            prior.datasetHexsha ≠ inp.repo.hexsha) →
        (archiveRawData inp).archives.length = inp.archives.length + 1 ∧
        ∀ inp2 : ArchiveInput,
          inp2.archives = (archiveRawData inp).archives →
          inp2.repo = inp.repo →
          archiveRawData inp2 =
            { archives := inp2.archives, packagedPaths := none,
              transferred := false, failed := false }) := by
  constructor
  · intro inp latest hla heq
    by_cases hskip : inp.customRiaUrl.isSome || !inp.hasContent
    · simp [archiveRawData, hskip]
    · simp [archiveRawData, hskip, hla, heq]
  · intro inp h1 h2 h3 hbound hcases
    have harch : (archiveRawData inp).archives =
        inp.archives ++
          [{ id := inp.newRowId, datasetId := inp.datasetId,
             parentId := (latestArchive inp.archives).map (fun p => p.id),
             datasetHexsha := inp.repo.hexsha,
             commitDatetime := inp.repo.commitDate }] := by
      rcases hcases with hnone | ⟨prior, hsome, hne⟩
      · simp [archiveRawData, h1, h2, hnone, archiveTransferStep, h3,
          archiveEntireDataset]
      · simp [archiveRawData, h1, h2, hsome, hne, archiveTransferStep, h3,
          archivePartialDataset]
    constructor
    · rw [harch]; simp
    · intro inp2 harch2 hrepo
      have hlatest : latestArchive inp2.archives = some
          { id := inp.newRowId, datasetId := inp.datasetId,
            parentId := (latestArchive inp.archives).map (fun p => p.id),
            datasetHexsha := inp.repo.hexsha,
            commitDatetime := inp.repo.commitDate } := by
        rw [harch2, harch]
        exact latestArchive_append_new _ _ hbound
      by_cases hskip : inp2.customRiaUrl.isSome || !inp2.hasContent
      · simp [archiveRawData, hskip]
      · simp [archiveRawData, hskip, hlatest, hrepo]

/-- Witness for C5: a run whose latest snapshot already carries the
current version id is a no-op, and a run that archives version v2 leaves
a table on which an immediately repeated run is a no-op, for two
snapshots becoming exactly one new one. -/
theorem c5_archival_idempotent_witness :
    archiveRawData archiveInputUpToDate =
      { archives := [priorRow], packagedPaths := none,
        transferred := false, failed := false } ∧
    (archiveRawData archiveInputWithPrior).archives.length = 2 ∧
    archiveRawData
        { archiveInputWithPrior with
            archives := (archiveRawData archiveInputWithPrior).archives } =
      { archives := (archiveRawData archiveInputWithPrior).archives,
        packagedPaths := none, transferred := false, failed := false } := by
  refine ⟨?_, ?_, ?_⟩
  · have h := c5_archival_idempotent.1 archiveInputUpToDate priorRow
      (by decide) (by decide)
    rw [h]
    decide
  · have h := (c5_archival_idempotent.2 archiveInputWithPrior rfl rfl rfl
      (by decide) (Or.inr ⟨priorRow, by decide, by decide⟩)).1
    rw [h]
    decide
  · exact (c5_archival_idempotent.2 archiveInputWithPrior rfl rfl rfl
      (by decide) (Or.inr ⟨priorRow, by decide, by decide⟩)).2
      _ rfl rfl

/-- C6: the new ArchiveSnapshot row is persisted only after the transfer
succeeds: when the transfer fails no new row exists afterwards, and the
next run diffs against the same prior snapshot. -/
theorem c6_persist_only_after_transfer :
    ∀ inp : ArchiveInput,
      inp.transferOk = false →
      (archiveRawData inp).archives = inp.archives ∧
      latestArchive (archiveRawData inp).archives =
        latestArchive inp.archives := by
  intro inp htr
  have harch : (archiveRawData inp).archives = inp.archives := by
    by_cases hskip : inp.customRiaUrl.isSome || !inp.hasContent
    · simp [archiveRawData, hskip]
    · cases hla : latestArchive inp.archives with
      | some latest =>
        by_cases heq : latest.datasetHexsha = inp.repo.hexsha
        · simp [archiveRawData, hskip, hla, heq]
        · simp [archiveRawData, hskip, hla, heq, archiveTransferStep, htr]
      | none =>
        simp [archiveRawData, hskip, hla, archiveTransferStep, htr]
  exact ⟨harch, by rw [harch]⟩

/-- Witness for C6: the v2 run with a failing transfer leaves the table
with only the prior snapshot, which remains the one the next run diffs
against. -/
theorem c6_persist_only_after_transfer_witness :
    (archiveRawData archiveInputFailedTransfer).archives = [priorRow] ∧
    latestArchive (archiveRawData archiveInputFailedTransfer).archives =
      some priorRow := by
  have h := c6_persist_only_after_transfer archiveInputFailedTransfer rfl
  refine ⟨h.1.trans (by decide), h.2.trans (by decide)⟩

/-- C9 counterexample: with series numbered 999 and 1000 in one scan
session, organize_flat_responses returns the series in the order 1000,
999 because comparison is on the zero-padded renderings, so the claim's
universally quantified ascending numeric order fails. -/
theorem c9_series_order_counterexample :
    organizeFlatResponses c9Responses c9PatientInfo =
      [{ patientName := "P1", patientId := "PID1", patientSex := "O",
         studyId := "ST1", studyUid := "U1",
         seriesMetadata :=
           [{ description := "s1000", number := 1000 },
            { description := "s999", number := 999 }] }] ∧
    ¬ List.Pairwise (fun a b : SeriesMetadata => a.number ≤ b.number)
      [{ description := "s1000", number := 1000 },
       { description := "s999", number := 999 }] := by
  constructor
  · decide
  · decide

/-- C9 amended: for every matched record, the attached series are sorted
by the zero-padded rendering of the series index; when every series
number of the responses is between 0 and 999, where zero-padding to
width three makes the string order numeric, the attached series are
ascending by numeric series index. -/
theorem c9_series_order_amended :
    ∀ (responses : List FlatResponse) (patientInfo : List PatientInfo)
      (record : StudyMetadata),
      record ∈ organizeFlatResponses responses patientInfo →
      (∀ r ∈ responses, 0 ≤ r.seriesNumber ∧ r.seriesNumber < 1000) →
      record.seriesMetadata.Pairwise (fun a b => a.number ≤ b.number) := by
  intro responses patientInfo record hrec hrange
  rw [organizeFlatResponses, List.mem_map] at hrec
  obtain ⟨pi, hpi, rfl⟩ := hrec
  have hp := pairwise_sortSeries
    ((responses.filter (fun r => r.studyInstanceUID = pi.studyUid)).map
      (fun r => { number := r.seriesNumber
                  description := r.seriesDescription : SeriesMetadata }))
  refine List.Pairwise.imp_of_mem ?_ hp
  intro a b hamem hbmem hle
  have ha2 := (mem_sortSeries _ _).mp hamem
  have hb2 := (mem_sortSeries _ _).mp hbmem
  rw [List.mem_map] at ha2 hb2
  obtain ⟨ra, hra, rfl⟩ := ha2
  obtain ⟨rb, hrb, rfl⟩ := hb2
  have hra2 := hrange ra (List.mem_filter.mp hra).1
  have hrb2 := hrange rb (List.mem_filter.mp hrb).1
  exact (seriesLe_iff_le hra2.1 hra2.2 hrb2.1 hrb2.2).mp hle

/-- Witness for the amended C9: a session with series numbered 2 and 1
comes back with the series ascending 1 then 2. -/
theorem c9_series_order_amended_witness :
    List.Pairwise (fun a b : SeriesMetadata => a.number ≤ b.number)
      [{ description := "a", number := 1 },
       { description := "b", number := 2 }] :=
  c9_series_order_amended c9AscResponses c9PatientInfo
    { patientName := "P1", patientId := "PID1", patientSex := "O",
      studyId := "ST1", studyUid := "U1",
      seriesMetadata :=
        [{ description := "a", number := 1 },
         { description := "b", number := 2 }] }
    (by decide) (by decide)

/-- C3: on the claim's own scenario (description query returns sessions
A, B, C; A already acquired; B excluded by an override; D force-included
and fetchable) the reconciliation pipeline raises TypeError instead of
returning the records, because find_studies_to_download subscripts the
StudyMetadata dataclasses that get_study_records returns, and the
dataclass defines no item access; the comprehension written with the
attribute access used elsewhere in the pipeline returns exactly the
records D and C the claim describes. -/
theorem c3_reconciliation_subscript_bug :
    findStudiesToDownload c3Env c3Study ["A"] =
      .error ("TypeError: StudyMetadata object is not subscriptable") ∧
    (findStudiesIntended c3Env c3Study ["A"]).map (fun r => r.studyUid) =
      ["D", "C"] := by
  constructor
  · decide
  · decide

end Autobids
